import Mathlib

/-!
Verification development for the RAG-DEMO repository (a multi-source
question-answering assistant with an SQLite backend, a PDF retrieval
backend and a web-search backend).

The Python sources are shallowly embedded: pure logic is translated
directly, stateful code becomes explicit state passing, and every
external capability (language model, relational store, search provider,
PDF loader, embedding provider) is an explicit oracle parameter.
Fallible calls return `Except`.
-/

set_option autoImplicit false

/- ------------------------------------------------------------------
   database.py
   ------------------------------------------------------------------ -/

/-- Scalar values held in a pandas DataFrame cell. -/
inductive Value where
  | intV : Int → Value
  | textV : String → Value
  | nullV : Value
deriving DecidableEq

/-- Embedding of a pandas DataFrame as returned by pd.read_sql_query:
column labels plus row-major data. -/
structure DataFrame where
  columns : List String
  rows : List (List Value)
deriving DecidableEq

/-- Embedding of the pandas `.empty` property: true when either axis has
length zero. -/
def DataFrame.empty (df : DataFrame) : Bool :=
  df.rows.isEmpty || df.columns.isEmpty

/-- Failures raised by the sqlite3 store when executing a statement:
`operationalError` models sqlite3.OperationalError (for example, a
reference to a nonexistent table), `otherError` models any other
exception. -/
inductive StoreError where
  | operationalError : String → StoreError
  | otherError : String → StoreError
deriving DecidableEq

/-- Embedding of the two except clauses of query_database in
database.py: each exception class is rendered to its own message. -/
def renderStoreError : StoreError → String
  | .operationalError e => "Database query error: " ++ e
  | .otherError e => "An error occurred: " ++ e

/-- Return type of query_database in database.py: a DataFrame on
success, or an error string (the function never lets the exception
escape). -/
inductive QueryResult where
  | frame : DataFrame → QueryResult
  | errorText : String → QueryResult
deriving DecidableEq

/-- Embedding of query_database in database.py. The sqlite store is an
oracle from SQL text to a DataFrame or a StoreError. -/
def query_database (store : String → Except StoreError DataFrame)
    (sql_query : String) : QueryResult :=
  match store sql_query with
  | .ok df => .frame df
  | .error e => .errorText (renderStoreError e)

/-- Row contents of the three tables of patients.db. A row is the list
of its column values rendered as strings. CREATE TABLE IF NOT EXISTS
only affects the schema, never row contents, so the state tracks rows
only (a table that does not exist yet is the empty table). -/
structure DBState where
  patients : List (List String)
  medical_records : List (List String)
  appointments : List (List String)
deriving DecidableEq

/-- The twenty seed patient rows inserted by create_patient_database in
database.py (the twelve explicitly listed columns of each tuple). -/
def patients_data : List (List String) :=
  [["Rajesh", "Kumar", "1985-03-15", "Male", "O+", "9876543210", "rajesh.kumar@email.com",
    "123 MG Road", "Bangalore", "Karnataka", "Priya Kumar", "9876543211"],
   ["Priya", "Sharma", "1990-07-22", "Female", "A+", "9876543212", "priya.sharma@email.com",
    "456 Park Street", "Mumbai", "Maharashtra", "Amit Sharma", "9876543213"],
   ["Amit", "Patel", "1978-11-08", "Male", "B+", "9876543214", "amit.patel@email.com",
    "789 Gandhi Nagar", "Ahmedabad", "Gujarat", "Neha Patel", "9876543215"],
   ["Neha", "Singh", "1995-05-30", "Female", "AB+", "9876543216", "neha.singh@email.com",
    "321 Lake View", "Delhi", "Delhi", "Vikram Singh", "9876543217"],
   ["Vikram", "Reddy", "1982-09-12", "Male", "O-", "9876543218", "vikram.reddy@email.com",
    "654 Beach Road", "Chennai", "Tamil Nadu", "Lakshmi Reddy", "9876543219"],
   ["Lakshmi", "Iyer", "1988-01-25", "Female", "A-", "9876543220", "lakshmi.iyer@email.com",
    "987 Temple Street", "Hyderabad", "Telangana", "Ramesh Iyer", "9876543221"],
   ["Ramesh", "Gupta", "1975-12-03", "Male", "B-", "9876543222", "ramesh.gupta@email.com",
    "147 River View", "Pune", "Maharashtra", "Anjali Gupta", "9876543223"],
   ["Anjali", "Mehta", "1992-08-17", "Female", "AB-", "9876543224", "anjali.mehta@email.com",
    "258 Hill Station", "Kolkata", "West Bengal", "Rohan Mehta", "9876543225"],
   ["Rohan", "Nair", "1980-04-28", "Male", "O+", "9876543226", "rohan.nair@email.com",
    "369 Garden Road", "Kochi", "Kerala", "Divya Nair", "9876543227"],
   ["Divya", "Chopra", "1993-10-14", "Female", "A+", "9876543228", "divya.chopra@email.com",
    "741 Market Street", "Jaipur", "Rajasthan", "Karan Chopra", "9876543229"],
   ["Sandeep", "Jain", "1987-02-18", "Male", "B+", "9876543230", "sandeep.jain@email.com",
    "159 Crescent Road", "Bangalore", "Karnataka", "Pooja Jain", "9876543231"],
   ["Pooja", "Mishra", "1991-11-20", "Female", "O-", "9876543232", "pooja.mishra@email.com",
    "753 Lotus Lane", "Pune", "Maharashtra", "Sandeep Jain", "9876543233"],
   ["Karan", "Malhotra", "1979-06-05", "Male", "A-", "9876543234", "karan.malhotra@email.com",
    "852 Sunrise Apartments", "Delhi", "Delhi", "Deepa Malhotra", "9876543235"],
   ["Deepa", "Verma", "1983-09-25", "Female", "AB+", "9876543236", "deepa.verma@email.com",
    "963 Palm Grove", "Mumbai", "Maharashtra", "Karan Malhotra", "9876543237"],
   ["Arjun", "Rao", "1996-01-10", "Male", "O+", "9876543238", "arjun.rao@email.com",
    "147 Sterling Towers", "Hyderabad", "Telangana", "Meera Rao", "9876543239"],
   ["Meera", "Krishnan", "1994-04-03", "Female", "B-", "9876543240", "meera.krishnan@email.com",
    "258 Pearl Residency", "Chennai", "Tamil Nadu", "Arjun Rao", "9876543241"],
   ["Suresh", "Bose", "1972-07-19", "Male", "A+", "9876543242", "suresh.bose@email.com",
    "369 Victoria Garden", "Kolkata", "West Bengal", "Mala Bose", "9876543243"],
   ["Mala", "Sen", "1976-12-28", "Female", "O+", "9876543244", "mala.sen@email.com",
    "741 Howrah Bridge", "Kolkata", "West Bengal", "Suresh Bose", "9876543245"],
   ["Vivek", "Anand", "1989-08-08", "Male", "AB-", "9876543246", "vivek.anand@email.com",
    "852 Silicon Oasis", "Bangalore", "Karnataka", "Sunita Anand", "9876543247"],
   ["Sunita", "Narayanan", "1990-03-12", "Female", "B+", "9876543248", "sunita.narayanan@email.com",
    "963 Electronic City", "Bangalore", "Karnataka", "Vivek Anand", "9876543249"]]

/-- Embedding of create_patient_database in database.py. The CREATE
TABLE IF NOT EXISTS statements do not touch row contents; the function
then branches on `SELECT COUNT(*) FROM patients`. The medical records
and appointments rows are produced by calls to the random module, which
is an external source: the two lists the random loops would produce are
passed in as parameters `gen_medical_records` and `gen_appointments`. -/
def create_patient_database
    (gen_medical_records gen_appointments : List (List String))
    (db : DBState) : String × DBState :=
  if db.patients.length > 0 then
    ("Database already exists with data", db)
  else
    ("✅ Database created successfully with 20 patients and medical records!",
     { patients := db.patients ++ patients_data,
       medical_records := db.medical_records ++ gen_medical_records,
       appointments := db.appointments ++ gen_appointments })

/- ------------------------------------------------------------------
   String helpers mirroring the Python primitives used by the sources
   ------------------------------------------------------------------ -/

/-- Embedding of the Python str.strip() method: removes leading and
trailing whitespace characters. -/
def pyStrip (s : String) : String :=
  ⟨((s.data.dropWhile Char.isWhitespace).reverse.dropWhile Char.isWhitespace).reverse⟩

/-- Fuel-driven worker for `replaceAll`; the fuel starts at the length
of the list, which is enough because each step consumes at least one
character of the input when the pattern is nonempty. -/
def replaceAllAux (pat repl : List Char) : Nat → List Char → List Char
  | 0, l => l
  | _, [] => []
  | fuel + 1, c :: cs =>
    if pat.isPrefixOf (c :: cs) then
      repl ++ replaceAllAux pat repl fuel ((c :: cs).drop pat.length)
    else
      c :: replaceAllAux pat repl fuel cs

/-- Embedding of the Python str.replace method for a nonempty pattern:
replaces every non-overlapping occurrence, scanning left to right. -/
def replaceAll (pat repl : String) (s : String) : String :=
  ⟨replaceAllAux pat.data repl.data s.data.length s.data⟩

/-- Decides whether `pat` occurs as a contiguous run inside the list. -/
def listContains (pat : List Char) : List Char → Bool
  | [] => pat.isEmpty
  | c :: cs => pat.isPrefixOf (c :: cs) || listContains pat cs

/-- Decides whether `needle` occurs as a substring of `hay`. -/
def strOccurs (needle hay : String) : Bool :=
  listContains needle.data hay.data

/- ------------------------------------------------------------------
   pdf_rag.py
   ------------------------------------------------------------------ -/

/-- Embedding of a langchain Document: page text plus source metadata. -/
structure Document where
  page_content : String
  source : String
  page : Nat
deriving DecidableEq

/-- Embedding of a FAISS vector store: the documents it was built over
and the identifier of the embedding capability used to embed them. The
similarity-search structure itself lives behind the embedding provider
boundary and is not inspected by the repository code. -/
structure FAISSStore where
  docs : List Document
  embedding : String
deriving DecidableEq

/-- Embedding of FAISS.from_documents in pdf_rag.py: builds a fresh
store over exactly the given documents. -/
def FAISSStore.from_documents (documents : List Document)
    (embedding : String) : FAISSStore :=
  { docs := documents, embedding := embedding }

/-- Embedding of the retrieval chain built by setup_retrieval_chain: a
retriever over the vector store with its top-k setting, combined with
the document chain (the model call itself is an external capability). -/
structure RetrievalChain where
  store : FAISSStore
  k : Nat
deriving DecidableEq

/-- Embedding of the response dict returned by retrieval_chain.invoke:
the keys accessed by the callers are answer and context. -/
structure PDFResponse where
  answer : Option String
  context : Option (List Document)

/-- Mutable state of a PDFRAGSystem instance from pdf_rag.py. The llm,
embeddings and prompt fields set in the constructor are capability
configuration; the embedding model identifier is kept because the
vector store records which embedding produced it. -/
structure PDFRAGSystem where
  api_key : String
  model : String
  embeddings : String
  vectorstore : Option FAISSStore
  retrieval_chain : Option RetrievalChain
deriving DecidableEq

/-- Embedding of PDFRAGSystem.__init__: both the vectorstore and the
retrieval chain start as None, and the embedding capability is
configured as mistral-embed. -/
def PDFRAGSystem.make (api_key : String) (model : String) : PDFRAGSystem :=
  { api_key := api_key, model := model, embeddings := "mistral-embed",
    vectorstore := none, retrieval_chain := none }

/-- Embedding of create_pdf_rag_system in pdf_rag.py (the default model
argument is mistral-large-latest). -/
def create_pdf_rag_system (api_key : String) (model : String) : PDFRAGSystem :=
  PDFRAGSystem.make api_key model

/-- Modelled from the spec: the RecursiveCharacterTextSplitter used by
split_documents is third-party library code absent from src/. Following
the words of the spec, it deterministically partitions text into
overlapping fixed-size windows by character count: each passage holds at
most `size` characters and consecutive passages share `ov` characters at
the boundary, the final window holding whatever remains. The guard
`size ≤ ov` only closes the degenerate non-advancing configurations,
which the spec excludes. -/
def splitText (size ov : Nat) (cs : List Char) : List (List Char) :=
  if cs.isEmpty then []
  else if _h : cs.length ≤ size ∨ size ≤ ov then [cs]
  else cs.take size :: splitText size ov (cs.drop (size - ov))
termination_by cs.length
decreasing_by
  rw [List.length_drop]
  omega

/-- Embedding of PDFRAGSystem.split_documents in pdf_rag.py (defaults in
the source: chunk_size 1000, chunk_overlap 200): every page is split
into passages that inherit the page metadata. -/
def split_documents (documents : List Document)
    (chunk_size chunk_overlap : Nat) : List Document :=
  documents.flatMap (fun d =>
    (splitText chunk_size chunk_overlap d.page_content.data).map
      (fun c => { d with page_content := String.mk c }))

/-- Overlap discipline of a chunk list: every chunk followed by another
is a full window of `size` characters, and its trailing `ov` characters
are exactly the leading `ov` characters of the next chunk (which is
longer than `ov`, so the shared boundary region has length exactly
`ov`). -/
def chunksOk (size ov : Nat) : List (List Char) → Prop
  | a :: b :: rest =>
      a.length = size ∧ ov < b.length ∧
      a.drop (size - ov) = b.take ov ∧ chunksOk size ov (b :: rest)
  | _ => True

/-- Embedding of PDFRAGSystem.create_vectorstore in pdf_rag.py: replaces
self.vectorstore with a store built from scratch over the given
documents using the configured embedding capability. -/
def PDFRAGSystem.create_vectorstore (sys : PDFRAGSystem)
    (documents : List Document) : PDFRAGSystem :=
  { sys with vectorstore := some (FAISSStore.from_documents documents sys.embeddings) }

/-- Embedding of PDFRAGSystem.setup_retrieval_chain in pdf_rag.py:
raises (here: returns an error) when the vectorstore is still None,
otherwise installs a retrieval chain over the current store. -/
def PDFRAGSystem.setup_retrieval_chain (sys : PDFRAGSystem) (k : Nat) :
    Except String PDFRAGSystem :=
  match sys.vectorstore with
  | none => .error "Vectorstore not initialized. Call create_vectorstore first."
  | some vs => .ok { sys with retrieval_chain := some { store := vs, k := k } }

/-- Embedding of PDFRAGSystem.process_pdf in pdf_rag.py: load, split,
rebuild the vector store, then install the retrieval chain. The PDF
loader (PyPDFLoader) is an external capability passed as an oracle from
path to page documents. Defaults in the source: chunk_size 1000,
chunk_overlap 200, k 5. -/
def PDFRAGSystem.process_pdf (sys : PDFRAGSystem)
    (loader : String → List Document) (pdf_path : String)
    (chunk_size chunk_overlap k : Nat) : Except String PDFRAGSystem :=
  let documents := loader pdf_path
  let splits := split_documents documents chunk_size chunk_overlap
  let sys1 := sys.create_vectorstore splits
  sys1.setup_retrieval_chain k

/-- Embedding of PDFRAGSystem.query in pdf_rag.py: raises (here:
returns an error) when the retrieval chain is still None, otherwise
invokes the chain. The chain invocation (similarity search plus model
call) is the oracle `runChain`. -/
def PDFRAGSystem.query (sys : PDFRAGSystem)
    (runChain : RetrievalChain → String → PDFResponse)
    (question : String) : Except String PDFResponse :=
  match sys.retrieval_chain with
  | none => .error "Retrieval chain not initialized. Call process_pdf first."
  | some chain => .ok (runChain chain question)

/- ------------------------------------------------------------------
   web_search.py
   ------------------------------------------------------------------ -/

/-- Embedding of one structured result dict returned by the Tavily
search tool; each field is read with .get and a default. -/
structure TavilyResult where
  title : Option String
  url : Option String
  content : Option String
deriving DecidableEq

/-- Formatting of a single Tavily result entry, exactly as concatenated
by the loop bodies in web_search.py. -/
def formatTavilyResult (idx : Nat) (r : TavilyResult) : String :=
  "\n" ++ toString idx ++ ". " ++ r.title.getD "No title" ++
  "\n   URL: " ++ r.url.getD "No URL" ++
  "\n   Content: " ++ r.content.getD "No content" ++ "\n"

/-- Formatting of a list of Tavily results, enumerating from `idx`
(the source enumerates from 1 starting from an empty accumulator). -/
def formatTavilyResults (idx : Nat) : List TavilyResult → String
  | [] => ""
  | r :: rs => formatTavilyResult idx r ++ formatTavilyResults (idx + 1) rs

/-- Embedding of WebSearchSystem from web_search.py. The two provider
shapes are oracle fields: `invokeTavily` receives the query and the
optional include_domains parameter and returns structured results;
`invokeDDG` receives plain query text and returns one text blob. An
`Except.error` models the provider raising an exception. -/
structure WebSearchSystem where
  groq_api_key : String
  tavily_api_key : Option String
  search_provider : String
  invokeTavily : String → Option (List String) → Except String (List TavilyResult)
  invokeDDG : String → Except String String

/-- Embedding of WebSearchSystem.search in web_search.py: dispatches on
the configured provider, formats Tavily results (truncated to
max_results, default 5 in the source) or passes the DuckDuckGo blob
through, and converts any provider exception into the single diagnostic
string rather than re-raising. -/
def WebSearchSystem.search (sys : WebSearchSystem) (query : String)
    (max_results : Nat) : String :=
  if sys.search_provider = "tavily" then
    match sys.invokeTavily query none with
    | .ok results => formatTavilyResults 1 (results.take max_results)
    | .error e => "Search error: " ++ e
  else
    match sys.invokeDDG query with
    | .ok results => results
    | .error e => "Search error: " ++ e

/-- The default trusted-domain allow-list of medical_search in
web_search.py. -/
def defaultTrustedDomains : List String :=
  ["pubmed.ncbi.nlm.nih.gov", "mayoclinic.org", "who.int", "cdc.gov",
   "nih.gov", "webmd.com", "medicalnewstoday.com"]

/-- Embedding of WebSearchSystem.medical_search in web_search.py
(`domains = none` models the Python default None, replaced by the
trusted list): with a Tavily provider and key the domain restriction is
passed natively as include_domains; otherwise disjunctive site:
qualifiers are appended to the query text, which is handed to search. -/
def WebSearchSystem.medical_search (sys : WebSearchSystem) (query : String)
    (domains : Option (List String)) : String :=
  let ds := domains.getD defaultTrustedDomains
  if sys.search_provider = "tavily" ∧ sys.tavily_api_key.isSome then
    match sys.invokeTavily query (some ds) with
    | .ok results => formatTavilyResults 1 results
    | .error e => "Medical search error: " ++ e
  else
    sys.search (query ++ " " ++ String.intercalate " OR "
      (ds.map (fun d => "site:" ++ d))) 5

/- ------------------------------------------------------------------
   app.py
   ------------------------------------------------------------------ -/

/-- Embedding of generate_sql_query in app.py. The Groq model call is
the oracle `llm` (fed the schema and the question; an error models the
provider raising). The post-processing of the returned content is
strip, then replace of the literal six-backtick string by the empty
string, then strip, exactly as in the source. -/
def generate_sql_query (llm : String → String → Except String String)
    (question : String) (schema : String) : Except String String :=
  match llm schema question with
  | .error e => .error e
  | .ok content =>
    let q1 := pyStrip content
    let q2 := replaceAll "``````" "" q1
    .ok (pyStrip q2)

/-- Embedding of generate_natural_response in app.py: the DataFrame is
rendered (pandas to_string is the oracle `render`) or replaced by the
"No results found" sentinel when empty, and the Groq model call is the
oracle `llm`. -/
def generate_natural_response (llm : String → String → Except String String)
    (render : DataFrame → String) (question : String)
    (results : DataFrame) : Except String String :=
  let results_str := if results.empty then "No results found" else render results
  llm question results_str

/-- Embedding of handle_sql_query in app.py. The second component of
the result records whether the answer-synthesis model call
(generate_natural_response) was reached on the taken path. Oracle
errors model exceptions reaching the surrounding try, which renders
them as the "Error processing SQL query" message. -/
def handle_sql_query (llm_sql llm_resp : String → String → Except String String)
    (render : DataFrame → String)
    (store : String → Except StoreError DataFrame)
    (schema question : String) : String × Bool :=
  match generate_sql_query llm_sql question schema with
  | .error e => ("Error processing SQL query: " ++ e, false)
  | .ok sql_query =>
    match query_database store sql_query with
    | .frame results =>
      if ¬ results.empty then
        match generate_natural_response llm_resp render question results with
        | .ok nl_response => (nl_response, true)
        | .error e => ("Error processing SQL query: " ++ e, true)
      else
        ("No matching records found in the database.", false)
    | .errorText r => ("Query execution error: " ++ r, false)

/-- The parts of the Streamlit session state read by handle_pdf_query.
The field `pdf_rag_ready` embeds the session flag named
pdf_rag_initialized in app.py. -/
structure SessionState where
  pdf_rag_ready : Bool
  pdf_rag_system : Option PDFRAGSystem

/-- Embedding of handle_pdf_query in app.py. The second component of
the result records whether pdf_rag_system.query was invoked on the
taken path. When the flag is set but the system is None, the attribute
access raises and the surrounding try renders the message (the exact
exception text is abbreviated here). -/
def handle_pdf_query (sess : SessionState)
    (runChain : RetrievalChain → String → PDFResponse)
    (question : String) : String × Bool :=
  if ¬ sess.pdf_rag_ready then
    ("⚠️ Please upload and process a PDF document first.", false)
  else
    match sess.pdf_rag_system with
    | none => ("Error processing PDF query: pdf_rag_system is None", false)
    | some sys =>
      match sys.query runChain question with
      | .ok response => (response.answer.getD "No answer found.", true)
      | .error e => ("Error processing PDF query: " ++ e, true)

/- ------------------------------------------------------------------
   Concrete sample instances (used to exercise the theorems on
   closed inputs)
   ------------------------------------------------------------------ -/

/-- A concrete WebSearchSystem configured with the DuckDuckGo fallback
provider, whose provider echoes the query text. -/
def sampleDDG : WebSearchSystem :=
  { groq_api_key := "gk", tavily_api_key := none,
    search_provider := "duckduckgo",
    invokeTavily := fun _ _ => Except.ok [],
    invokeDDG := fun q => Except.ok q }

/-- A concrete WebSearchSystem configured with the DuckDuckGo fallback
provider, whose provider raises on every request. -/
def sampleFailingDDG : WebSearchSystem :=
  { groq_api_key := "gk", tavily_api_key := none,
    search_provider := "duckduckgo",
    invokeTavily := fun _ _ => Except.ok [],
    invokeDDG := fun _ => Except.error "connection reset" }

/-- The PDFRAGSystem state reached from a fresh system after processing
a document whose loader yields no pages, with the default parameters. -/
def samplePDFProcessed : PDFRAGSystem :=
  { api_key := "mk", model := "mistral-large-latest",
    embeddings := "mistral-embed",
    vectorstore := some (FAISSStore.from_documents [] "mistral-embed"),
    retrieval_chain := some { store := FAISSStore.from_documents [] "mistral-embed",
                              k := 5 } }

/- ------------------------------------------------------------------
   Helper lemmas
   ------------------------------------------------------------------ -/

/-- The first chunk produced by splitText on a nonempty text is always
the first `size` characters of the text. -/
theorem splitText_head (size ov : Nat) (h : ov < size) (cs : List Char)
    (hne : cs ≠ []) :
    ∃ rest, splitText size ov cs = cs.take size :: rest := by
  rw [splitText]
  split
  · rename_i hE
    exact absurd (by simpa using hE) hne
  · split
    · rename_i hle
      refine ⟨[], ?_⟩
      rcases hle with hle | hle
      · rw [List.take_of_length_le hle]
      · omega
    · exact ⟨_, rfl⟩

/-- Every chunk produced by splitText is at most `size` characters
long, and consecutive chunks share a boundary region of exactly `ov`
characters. -/
theorem splitText_le_and_overlap (size ov : Nat) (h : ov < size) :
    ∀ cs : List Char,
      (∀ c ∈ splitText size ov cs, c.length ≤ size) ∧
      chunksOk size ov (splitText size ov cs) := by
  have main : ∀ (n : Nat) (cs : List Char), cs.length ≤ n →
      (∀ c ∈ splitText size ov cs, c.length ≤ size) ∧
      chunksOk size ov (splitText size ov cs) := by
    intro n
    induction n with
    | zero =>
      intro cs hlen
      have hcs : cs = [] := by
        cases cs with
        | nil => rfl
        | cons x xs => simp at hlen
      subst hcs
      rw [splitText]
      simp [chunksOk]
    | succ n ih =>
      intro cs hlen
      by_cases hcs : cs = []
      · subst hcs
        rw [splitText]
        simp [chunksOk]
      · by_cases hle : cs.length ≤ size
        · have heq : splitText size ov cs = [cs] := by
            rw [splitText]
            rw [if_neg (by simpa using hcs)]
            rw [dif_pos (Or.inl hle)]
          rw [heq]
          constructor
          · intro c hc
            simp at hc
            subst hc
            exact hle
          · simp [chunksOk]
        · have hpos : 0 < cs.length := List.length_pos.mpr hcs
          have hgt : size < cs.length := by omega
          have heq : splitText size ov cs =
              cs.take size :: splitText size ov (cs.drop (size - ov)) := by
            rw [splitText]
            rw [if_neg (by simpa using hcs)]
            rw [dif_neg (by omega)]
          have hlen2 : (cs.drop (size - ov)).length ≤ n := by
            rw [List.length_drop]
            omega
          obtain ⟨ihb, ihc⟩ := ih (cs.drop (size - ov)) hlen2
          have hne2 : cs.drop (size - ov) ≠ [] := by
            intro hcon
            have := congrArg List.length hcon
            rw [List.length_drop] at this
            simp at this
            omega
          obtain ⟨rest, hrest⟩ := splitText_head size ov h (cs.drop (size - ov)) hne2
          rw [heq]
          constructor
          · intro c hc
            rcases List.mem_cons.mp hc with hc | hc
            · subst hc
              rw [List.length_take]
              omega
            · exact ihb c hc
          · rw [hrest]
            refine ⟨?_, ?_, ?_, ?_⟩
            · rw [List.length_take]
              omega
            · rw [List.length_take, List.length_drop]
              omega
            · rw [List.drop_take size (size - ov) cs]
              rw [Nat.sub_sub_self (Nat.le_of_lt h)]
              rw [List.take_take ov size]
              rw [Nat.min_def]
              rw [if_pos (Nat.le_of_lt h)]
            · rw [← hrest]
              exact ihc
  intro cs
  exact main cs.length cs (Nat.le_refl _)

/-- An occurrence of a pattern in a suffix is an occurrence in the
whole list. -/
theorem listContains_append_right (pat ys xs : List Char)
    (h : listContains pat ys = true) :
    listContains pat (xs ++ ys) = true := by
  induction xs with
  | nil => simpa using h
  | cons x xs ih =>
    simp only [List.cons_append, listContains, Bool.or_eq_true]
    exact Or.inr ih

/-- An occurrence of a substring in `t` is an occurrence in `s ++ t`. -/
theorem strOccurs_append_right (needle t s : String)
    (h : strOccurs needle t = true) :
    strOccurs needle (s ++ t) = true := by
  unfold strOccurs at *
  rw [String.data_append]
  exact listContains_append_right _ _ _ h

/- ------------------------------------------------------------------
   Claim theorems
   ------------------------------------------------------------------ -/

/-- C1: whenever the generated SQL query executes successfully and the
resulting DataFrame is empty, handle_sql_query returns the fixed answer
string "No matching records found in the database." and the
answer-synthesis model call (generate_natural_response) is not reached
on that path (the invocation flag is false, and the result does not
depend on the synthesis oracle `llm_resp`). -/
theorem handle_sql_query_empty_no_synthesis
    (llm_sql llm_resp : String → String → Except String String)
    (render : DataFrame → String)
    (store : String → Except StoreError DataFrame)
    (schema question sql_query : String) (df : DataFrame)
    (hgen : generate_sql_query llm_sql question schema = .ok sql_query)
    (hstore : store sql_query = .ok df)
    (hempty : df.empty = true) :
    handle_sql_query llm_sql llm_resp render store schema question =
      ("No matching records found in the database.", false) := by
  simp only [handle_sql_query, hgen, query_database, hstore, hempty]
  simp

theorem handle_sql_query_empty_no_synthesis_witness :
    DataFrame.empty { columns := ["patient_id"], rows := [] } = true ∧
    handle_sql_query (fun _ _ => Except.ok "SELECT 1")
      (fun _ _ => Except.ok "a synthesized answer")
      (fun _ => "")
      (fun _ => Except.ok { columns := ["patient_id"], rows := [] })
      "TABLE: patients" "how many patients" =
      ("No matching records found in the database.", false) :=
  ⟨rfl, handle_sql_query_empty_no_synthesis
    (fun _ _ => Except.ok "SELECT 1")
    (fun _ _ => Except.ok "a synthesized answer")
    (fun _ => "")
    (fun _ => Except.ok { columns := ["patient_id"], rows := [] })
    "TABLE: patients" "how many patients" "SELECT 1"
    { columns := ["patient_id"], rows := [] } rfl rfl rfl⟩

/-- C2: when the store rejects the generated SQL statement,
query_database returns an errorText value, which is distinct from every
successful (possibly empty) DataFrame result, and handle_sql_query
converts it into the "Query execution error" answer instead of letting
the failure propagate (its result type is a plain pair, and the
synthesis flag stays false). -/
theorem query_database_error_distinct_and_reported
    (llm_sql llm_resp : String → String → Except String String)
    (render : DataFrame → String)
    (store : String → Except StoreError DataFrame)
    (schema question sql_query : String) (err : StoreError)
    (hgen : generate_sql_query llm_sql question schema = .ok sql_query)
    (hstore : store sql_query = .error err) :
    query_database store sql_query = .errorText (renderStoreError err) ∧
    (∀ df : DataFrame, query_database store sql_query ≠ .frame df) ∧
    handle_sql_query llm_sql llm_resp render store schema question =
      ("Query execution error: " ++ renderStoreError err, false) := by
  have hq : query_database store sql_query = .errorText (renderStoreError err) := by
    unfold query_database
    rw [hstore]
  refine ⟨hq, ?_, ?_⟩
  · intro df hcon
    rw [hq] at hcon
    exact QueryResult.noConfusion hcon
  · simp only [handle_sql_query, hgen, hq]

theorem query_database_error_distinct_and_reported_witness :
    query_database (fun _ => Except.error (StoreError.operationalError "no such table: foo"))
      "SELECT 1" = .errorText (renderStoreError (StoreError.operationalError "no such table: foo")) ∧
    (∀ df : DataFrame,
      query_database (fun _ => Except.error (StoreError.operationalError "no such table: foo"))
        "SELECT 1" ≠ .frame df) ∧
    handle_sql_query (fun _ _ => Except.ok "SELECT 1")
      (fun _ _ => Except.ok "a synthesized answer")
      (fun _ => "")
      (fun _ => Except.error (StoreError.operationalError "no such table: foo"))
      "TABLE: patients" "list the foos" =
      ("Query execution error: " ++
        renderStoreError (StoreError.operationalError "no such table: foo"), false) :=
  query_database_error_distinct_and_reported
    (fun _ _ => Except.ok "SELECT 1")
    (fun _ _ => Except.ok "a synthesized answer")
    (fun _ => "")
    (fun _ => Except.error (StoreError.operationalError "no such table: foo"))
    "TABLE: patients" "list the foos" "SELECT 1"
    (StoreError.operationalError "no such table: foo") rfl rfl

/-- C3: when the session flag recording that a document has been
processed is false, handle_pdf_query returns the message that the index
is not yet available and the retriever (pdf_rag_system.query) is not
invoked (the invocation flag is false, and the result does not depend
on the session system or the chain oracle). -/
theorem handle_pdf_query_before_index_guard (sess : SessionState)
    (runChain : RetrievalChain → String → PDFResponse) (question : String)
    (hflag : sess.pdf_rag_ready = false) :
    handle_pdf_query sess runChain question =
      ("⚠️ Please upload and process a PDF document first.", false) := by
  unfold handle_pdf_query
  rw [hflag]
  simp

theorem handle_pdf_query_before_index_guard_witness :
    ({ pdf_rag_ready := false, pdf_rag_system := none } : SessionState).pdf_rag_ready = false ∧
    handle_pdf_query { pdf_rag_ready := false, pdf_rag_system := none }
      (fun _ _ => { answer := none, context := none }) "what is in the report" =
      ("⚠️ Please upload and process a PDF document first.", false) :=
  ⟨rfl, handle_pdf_query_before_index_guard
    { pdf_rag_ready := false, pdf_rag_system := none }
    (fun _ _ => { answer := none, context := none }) "what is in the report" rfl⟩

/-- C4: the post-processing of generate_sql_query only removes runs of
six consecutive backticks, so a model response wrapped in a standard
markdown triple-backtick code fence is returned with its fence markers
intact: at this concrete failing input the returned query still
contains the three-backtick fence marker. -/
theorem generate_sql_query_keeps_code_fences :
    generate_sql_query (fun _ _ => Except.ok "```sql\nSELECT * FROM patients\n```")
      "List all patients" "TABLE: patients" =
      Except.ok "```sql\nSELECT * FROM patients\n```" ∧
    strOccurs "```" "```sql\nSELECT * FROM patients\n```" = true := by
  constructor
  · rfl
  · rfl

/-- C5: with the fallback provider (DuckDuckGo), medical_search with
the default trusted-domain list hands the search step a request string
that contains every trusted domain as a site:<domain> term (the terms
being joined disjunctively with " OR " by construction). -/
theorem medical_search_fallback_includes_domains (sys : WebSearchSystem)
    (query : String)
    (hprov : sys.search_provider = "duckduckgo") :
    ∃ request : String,
      sys.medical_search query none = sys.search request 5 ∧
      ∀ d ∈ defaultTrustedDomains, strOccurs ("site:" ++ d) request = true := by
  refine ⟨query ++ " " ++ String.intercalate " OR "
      (defaultTrustedDomains.map (fun d => "site:" ++ d)), ?_, ?_⟩
  · unfold WebSearchSystem.medical_search
    rw [if_neg]
    · rfl
    · rw [hprov]
      simp
  · intro d hd
    fin_cases hd <;> (refine strOccurs_append_right _ _ (query ++ " ") ?_) <;> decide

theorem medical_search_fallback_includes_domains_witness :
    ∃ request : String,
      sampleDDG.medical_search "flu treatment" none =
        sampleDDG.search request 5 ∧
      ∀ d ∈ defaultTrustedDomains, strOccurs ("site:" ++ d) request = true :=
  medical_search_fallback_includes_domains sampleDDG "flu treatment" rfl

/-- C6: whatever exception the active provider raises, search catches
it and returns the single diagnostic string "Search error: ..." in
place of the snippet text; its return type is a plain String, so no
exception reaches the caller. -/
theorem search_catches_provider_errors (sys : WebSearchSystem)
    (query e : String) (max_results : Nat)
    (h : (sys.search_provider = "tavily" ∧ sys.invokeTavily query none = .error e) ∨
         (sys.search_provider ≠ "tavily" ∧ sys.invokeDDG query = .error e)) :
    sys.search query max_results = "Search error: " ++ e := by
  unfold WebSearchSystem.search
  rcases h with ⟨hp, he⟩ | ⟨hp, he⟩
  · rw [if_pos hp, he]
  · rw [if_neg hp, he]

theorem search_catches_provider_errors_witness :
    ((sampleFailingDDG.search_provider = "tavily" ∧
      sampleFailingDDG.invokeTavily "flu" none = .error "connection reset") ∨
     (sampleFailingDDG.search_provider ≠ "tavily" ∧
      sampleFailingDDG.invokeDDG "flu" = .error "connection reset")) ∧
    sampleFailingDDG.search "flu" 5 = "Search error: " ++ "connection reset" :=
  ⟨Or.inr ⟨by decide, rfl⟩,
   search_catches_provider_errors sampleFailingDDG "flu" "connection reset" 5
    (Or.inr ⟨by decide, rfl⟩)⟩

/-- C7: for valid chunk parameters with chunk_overlap < chunk_size,
split_documents applied to one document produces passages of at most
chunk_size characters, and each pair of consecutive passages shares a
boundary region of exactly chunk_overlap characters (here proved for
every consecutive pair, which subsumes the allowance for the final
passage). -/
theorem split_documents_chunk_spec (size ov : Nat) (d : Document)
    (h : ov < size) :
    (∀ p ∈ split_documents [d] size ov, p.page_content.length ≤ size) ∧
    chunksOk size ov
      ((split_documents [d] size ov).map (fun p => p.page_content.data)) := by
  obtain ⟨hb, hc⟩ := splitText_le_and_overlap size ov h d.page_content.data
  constructor
  · intro p hp
    simp only [split_documents, List.flatMap_cons, List.flatMap_nil,
      List.append_nil, List.mem_map] at hp
    obtain ⟨c, hcmem, hpc⟩ := hp
    subst hpc
    exact hb c hcmem
  · have hmap : (split_documents [d] size ov).map (fun p => p.page_content.data) =
        splitText size ov d.page_content.data := by
      simp only [split_documents, List.flatMap_cons, List.flatMap_nil,
        List.append_nil, List.map_map]
      have : ((fun p : Document => p.page_content.data) ∘
          (fun c => { d with page_content := String.mk c })) = id := by
        funext c
        rfl
      rw [this, List.map_id]
    rw [hmap]
    exact hc

theorem split_documents_chunk_spec_witness :
    2 < 5 ∧
    ((∀ p ∈ split_documents
        [{ page_content := "abcdefghij", source := "doc.pdf", page := 0 }] 5 2,
        p.page_content.length ≤ 5) ∧
      chunksOk 5 2
        ((split_documents
          [{ page_content := "abcdefghij", source := "doc.pdf", page := 0 }] 5 2).map
          (fun p => p.page_content.data))) :=
  ⟨by decide, split_documents_chunk_spec 5 2
    { page_content := "abcdefghij", source := "doc.pdf", page := 0 } (by decide)⟩

/-- C8: querying a freshly created PDFRAGSystem, before any call to
process_pdf, fails with the not-initialized error instead of returning
a response, for every question and every chain oracle. -/
theorem query_before_process_pdf_fails (api_key model question : String)
    (runChain : RetrievalChain → String → PDFResponse) :
    (create_pdf_rag_system api_key model).query runChain question =
      .error "Retrieval chain not initialized. Call process_pdf first." := rfl

/-- C9: after processing a first document, processing a second one
replaces the vector store with one reinitialized from scratch over the
passages split from the second load (the concatenation over its pages),
and the resulting system state is exactly the one obtained by
processing the second document from the original state: nothing from
the first document is incrementally retained. -/
theorem process_pdf_rebuilds_index (sys : PDFRAGSystem)
    (loader : String → List Document) (p1 p2 : String)
    (cs1 co1 k1 cs2 co2 k2 : Nat) (s1 s2 : PDFRAGSystem)
    (h1 : sys.process_pdf loader p1 cs1 co1 k1 = .ok s1)
    (h2 : s1.process_pdf loader p2 cs2 co2 k2 = .ok s2) :
    s2.vectorstore = some (FAISSStore.from_documents
      (split_documents (loader p2) cs2 co2) sys.embeddings) ∧
    sys.process_pdf loader p2 cs2 co2 k2 = .ok s2 := by
  unfold PDFRAGSystem.process_pdf PDFRAGSystem.create_vectorstore
    PDFRAGSystem.setup_retrieval_chain at h1 h2 ⊢
  simp only [Except.ok.injEq] at h1 h2
  subst h1
  subst h2
  exact ⟨rfl, rfl⟩

theorem process_pdf_rebuilds_index_witness :
    samplePDFProcessed.vectorstore =
      some (FAISSStore.from_documents
        (split_documents ((fun _ => []) "b.pdf") 1000 200)
        (create_pdf_rag_system "mk" "mistral-large-latest").embeddings) ∧
    (create_pdf_rag_system "mk" "mistral-large-latest").process_pdf
      (fun _ => []) "b.pdf" 1000 200 5 = .ok samplePDFProcessed :=
  process_pdf_rebuilds_index
    (create_pdf_rag_system "mk" "mistral-large-latest")
    (fun _ => []) "a.pdf" "b.pdf" 1000 200 5 1000 200 5
    samplePDFProcessed samplePDFProcessed rfl rfl

/-- C10: on any database state whose patients table already holds at
least one row, create_patient_database returns the already-exists
message and the entire state unchanged: no rows are inserted into any
of the three tables, whatever rows the random generators would have
produced. -/
theorem create_patient_database_idempotent
    (gen_medical_records gen_appointments : List (List String))
    (db : DBState) (h : db.patients ≠ []) :
    create_patient_database gen_medical_records gen_appointments db =
      ("Database already exists with data", db) := by
  unfold create_patient_database
  rw [if_pos]
  exact List.length_pos.mpr h

theorem create_patient_database_idempotent_witness :
    ({ patients := [["1", "Rajesh"]], medical_records := [],
       appointments := [] } : DBState).patients ≠ [] ∧
    create_patient_database [] []
      { patients := [["1", "Rajesh"]], medical_records := [], appointments := [] } =
      ("Database already exists with data",
       { patients := [["1", "Rajesh"]], medical_records := [], appointments := [] }) :=
  ⟨by decide, create_patient_database_idempotent [] []
    { patients := [["1", "Rajesh"]], medical_records := [], appointments := [] }
    (by decide)⟩
